import Mathlib

/-!
# Pod registry of the virtual-kubelet demo backend (`main.go`)

A shallow embedding of the HTTP handlers of `main.go` and of the part of the
Kubernetes pod type they read or write.

* The process-wide `pods map[string]*v1.Pod` is an association list with
  pairwise distinct keys (`AList`).  A key that is absent reads as `none`, the
  Go `nil`.  Every write stores the address of a handler-local `pod` that is
  never touched again, so a stored pointer is never `nil` and never aliased:
  records are values.
* A handler takes the registry (and, for `createPod`, the instant returned by
  `time.Now()`) and returns the registry it leaves together with the response
  it wrote.
* `json.NewDecoder(r.Body).Decode(&pod)` is library code: a request carries the
  outcome of that call, the descriptor left in the local `pod` and the error,
  if any.  A failing call leaves the zero value when the body is not JSON and
  a partly filled descriptor when a JSON value does not fit its field.
-/

namespace VirkubeDemo

/-! ## The part of `k8s.io/api/core/v1` used by the handlers -/

/-- Instants of `metav1.Time`; `0` is the zero value, an unpopulated timestamp. -/
abbrev Time := Nat

/-- Identity of a pod: `ObjectMeta.Namespace` and `ObjectMeta.Name`. -/
structure ObjectMeta where
  Name : String := ""
  Namespace : String := ""
deriving DecidableEq, Repr

/-- Container descriptor of a pod spec. -/
structure Container where
  Name : String := ""
  Image : String := ""
deriving DecidableEq, Repr

/-- Pod spec: the ordered container descriptors. -/
structure PodSpec where
  Containers : List Container := []
deriving DecidableEq, Repr

/-- Condition record of a pod status (`v1.PodCondition`). -/
structure PodCondition where
  Type_ : String := ""
  Status : String := ""
  LastProbeTime : Time := 0
  LastTransitionTime : Time := 0
  Reason : String := ""
  Message : String := ""
deriving DecidableEq, Repr

/-- Waiting state of a container. -/
structure ContainerStateWaiting where
  Reason : String := ""
  Message : String := ""
deriving DecidableEq, Repr

/-- Running state of a container. -/
structure ContainerStateRunning where
  StartedAt : Time := 0
deriving DecidableEq, Repr

/-- Terminated state of a container. -/
structure ContainerStateTerminated where
  ExitCode : Int := 0
  Reason : String := ""
  Message : String := ""
deriving DecidableEq, Repr

/-- State of a container: three optional members, `none` for a nil pointer. -/
structure ContainerState where
  Waiting : Option ContainerStateWaiting := none
  Running : Option ContainerStateRunning := none
  Terminated : Option ContainerStateTerminated := none
deriving DecidableEq, Repr

/-- Status record of one container (`v1.ContainerStatus`). -/
structure ContainerStatus where
  Name : String := ""
  State : ContainerState := {}
  LastTerminationState : ContainerState := {}
  Ready : Bool := false
  RestartCount : Int := 0
  Image : String := ""
  ImageID : String := ""
  ContainerID : String := ""
deriving DecidableEq, Repr

/-- Status of a pod (`v1.PodStatus`): the fields `createPod` writes and, as
representatives of the fields no handler writes, `Message`, `Reason`, `HostIP`,
`PodIP` and `StartTime`. -/
structure PodStatus where
  Phase : String := ""
  Conditions : List PodCondition := []
  Message : String := ""
  Reason : String := ""
  HostIP : String := ""
  PodIP : String := ""
  StartTime : Option Time := none
  ContainerStatuses : List ContainerStatus := []
deriving DecidableEq, Repr

/-- Pod descriptor (`v1.Pod`). -/
structure Pod where
  ObjectMeta : ObjectMeta := {}
  Spec : PodSpec := {}
  Status : PodStatus := {}
deriving DecidableEq, Repr

/-- Phase constant `v1.PodRunning`. -/
def PodRunning : String := "Running"

/-- Condition type constant `v1.PodScheduled`. -/
def PodScheduled : String := "PodScheduled"

/-- Condition type constant `v1.PodInitialized`. -/
def PodInitialized : String := "Initialized"

/-- Condition type constant `v1.PodReady`. -/
def PodReady : String := "Ready"

/-- Condition status constant `v1.ConditionTrue`. -/
def ConditionTrue : String := "True"

/-! ## Transport: requests and responses -/

/-- Outcome of `json.NewDecoder(r.Body).Decode(&pod)` on `var pod v1.Pod`: the
descriptor left in `pod` and the error, if any. -/
structure Decoded where
  pod : Pod := {}
  err : Option String := none
deriving DecidableEq, Repr

/-- A well-formed body holding the descriptor `p`. -/
def Decoded.ok (p : Pod) : Decoded := { pod := p, err := none }

/-- A failed decoding: `Decode` returns an error with message `e`, having left
the descriptor `left` in the local `pod`. On a type error (a JSON value that
does not fit its field) the decoder skips that value and fills the rest, so
`left` is then a partly filled descriptor. -/
def Decoded.failed (e : String) (left : Pod) : Decoded := { pod := left, err := some e }

/-- The failed decoding of a body that is not JSON at all (syntax error, empty
body): nothing is written, the local `pod` keeps the zero value it was
declared with. One case of `Decoded.failed` among others. -/
def Decoded.syntaxError (e : String) : Decoded := Decoded.failed e {}

/-- Request seen by a handler: method, parsed query parameters, decoded body. -/
structure Request where
  Method : String := "GET"
  Query : List (String × String) := []
  Body : Decoded := {}
deriving DecidableEq, Repr

/-- First value of a query parameter, the empty string when it is missing
(`r.URL.Query().Get`). -/
def Request.queryGet (r : Request) (key : String) : String :=
  ((r.Query.find? (fun kv => kv.1 == key)).map (fun kv => kv.2)).getD ""

/-- What a handler wrote as the response body. -/
inductive Payload where
  | empty
  | text (s : String)
  | status (s : PodStatus)
  | podList (l : List Pod)
deriving DecidableEq, Repr

/-- Response: status code (`200` when the handler never calls `WriteHeader`)
and body. -/
structure Response where
  Code : Nat := 200
  Body : Payload := Payload.empty
deriving DecidableEq, Repr

/-- The in-memory registry `pods`. -/
abbrev Registry := AList (fun _ : String => Pod)

/-- Number of stored records, `len(pods)`. -/
def Registry.size (pods : Registry) : Nat := pods.entries.length

/-- Stored records, in the order this representation iterates them. -/
def Registry.values (pods : Registry) : List Pod := pods.entries.map (fun e => e.2)

/-! ## The handlers -/

/-- Composite key: `fmt.Sprintf("%s-%s", namespace, name)`. -/
def buildKeyFromNames (ns : String) (name : String) : String :=
  ns ++ "-" ++ name

/-- The CORS gate: true exactly for a preflight (`OPTIONS`) request, on which
every handler returns at once. The two headers it sets are not modelled. -/
def addCorsHeaders (r : Request) : Bool :=
  r.Method == "OPTIONS"

/-- Response after `http.Error(w, err.Error(), 400)`, or the untouched response
when decoding succeeded. -/
def decodeResponse (d : Decoded) : Response :=
  match d.err with
  | some e => { Code := 400, Body := Payload.text (e ++ "\n") }
  | none => {}

/-- Handler `GetPods`: every stored record. -/
def GetPods (pods : Registry) (r : Request) : Response :=
  if addCorsHeaders r then {}
  else { Code := 200, Body := Payload.podList pods.values }

/-- Handler `getPodStatus`. -/
def getPodStatus (pods : Registry) (r : Request) : Response :=
  let ns := r.queryGet "namespace"
  let name := r.queryGet "name"
  if addCorsHeaders r then {}
  else
    match pods.lookup (buildKeyFromNames ns name) with
    | none => { Code := 404, Body := Payload.empty }
    | some pod => { Code := 200, Body := Payload.status pod.Status }

/-- The container status `createPod` synthesizes for one spec container. -/
def newContainerStatus (now : Time) (container : Container) : ContainerStatus :=
  { Name := container.Name,
    Image := container.Image,
    Ready := true,
    RestartCount := 0,
    State := { Running := some { StartedAt := now } } }

/-- The loop of `createPod` over `pod.Spec.Containers`: one append per
container to the statuses accumulated so far. -/
def appendStatuses (now : Time) : List Container → List ContainerStatus → List ContainerStatus
  | [], acc => acc
  | container :: rest, acc => appendStatuses now rest (acc ++ [newContainerStatus now container])

/-- The record `createPod` stores for the decoded descriptor `pod`. -/
def simulateStatus (now : Time) (pod : Pod) : Pod :=
  let pod := { pod with Status := { pod.Status with Phase := PodRunning } }
  let pod := { pod with Status := { pod.Status with Conditions :=
    [ { Type_ := PodScheduled, Status := ConditionTrue },
      { Type_ := PodInitialized, Status := ConditionTrue },
      { Type_ := PodReady, Status := ConditionTrue } ] } }
  let statuses := appendStatuses now pod.Spec.Containers pod.Status.ContainerStatuses
  { pod with Status := { pod.Status with ContainerStatuses := statuses } }

/-- Handler `createPod`. -/
def createPod (pods : Registry) (now : Time) (r : Request) : Registry × Response :=
  if addCorsHeaders r then (pods, {})
  else
    let w := decodeResponse r.Body
    let pod := simulateStatus now r.Body.pod
    let key := buildKeyFromNames pod.ObjectMeta.Namespace pod.ObjectMeta.Name
    (pods.insert key pod, w)

/-- Handler `updatePod`. -/
def updatePod (pods : Registry) (r : Request) : Registry × Response :=
  if addCorsHeaders r then (pods, {})
  else
    let w := decodeResponse r.Body
    let pod := r.Body.pod
    let key := buildKeyFromNames pod.ObjectMeta.Namespace pod.ObjectMeta.Name
    (pods.insert key pod, w)

/-- Handler `deletePod`. -/
def deletePod (pods : Registry) (r : Request) : Registry × Response :=
  if addCorsHeaders r then (pods, {})
  else
    let w := decodeResponse r.Body
    let pod := r.Body.pod
    let key := buildKeyFromNames pod.ObjectMeta.Namespace pod.ObjectMeta.Name
    (pods.erase key, w)

/-- Placeholder text written by `getContainerLogs`. -/
def logText (ns podName containerName : String) : String :=
  "Simulated log content for " ++ ns ++ ", " ++ podName ++ ", " ++ containerName ++
    "\nIf this provider actually ran the containers then the logs would appear here ;-)\n"

/-- The loop of `getContainerLogs` over the spec containers: the text at the
first container with the requested name, `404` after a full scan. -/
def scanContainers (ns podName containerName : String) : List Container → Response
  | [] => { Code := 404, Body := Payload.empty }
  | container :: rest =>
    if container.Name == containerName then
      { Code := 200, Body := Payload.text (logText ns podName containerName) }
    else scanContainers ns podName containerName rest

/-- Handler `getContainerLogs`. -/
def getContainerLogs (pods : Registry) (r : Request) : Response :=
  let ns := r.queryGet "namespace"
  let podName := r.queryGet "podName"
  let containerName := r.queryGet "containerName"
  if addCorsHeaders r then {}
  else
    match pods.lookup (buildKeyFromNames ns podName) with
    | none => { Code := 404, Body := Payload.empty }
    | some pod => scanContainers ns podName containerName pod.Spec.Containers

/-- One state-changing call of the API. -/
inductive Call where
  | create (now : Time) (r : Request)
  | update (r : Request)
  | delete (r : Request)
deriving DecidableEq, Repr

/-- Registry left by one call. -/
def Call.apply (pods : Registry) : Call → Registry
  | Call.create now r => (createPod pods now r).1
  | Call.update r => (updatePod pods r).1
  | Call.delete r => (deletePod pods r).1

/-- Registry left by a sequence of calls, first call first. -/
def runCalls (pods : Registry) (calls : List Call) : Registry :=
  calls.foldl Call.apply pods

/-- Every stored record sits under the composite key of its own namespace and
name. -/
def KeysMatch (pods : Registry) : Prop :=
  ∀ e ∈ pods.entries, e.1 = buildKeyFromNames e.2.ObjectMeta.Namespace e.2.ObjectMeta.Name

/-! ## Sample descriptors and requests -/

/-- Descriptor of pod `b` in namespace `a` with the single container `c1`. -/
def podAB : Pod :=
  { ObjectMeta := { Namespace := "a", Name := "b" },
    Spec := { Containers := [{ Name := "c1", Image := "img1" }] } }

/-- A container status as a caller may submit it inside a descriptor. -/
def submittedStatus : ContainerStatus :=
  { Name := "old", Image := "img0", RestartCount := 4 }

/-- Descriptor of pod `a/b` that arrives with a status of its own. -/
def podWithStatus : Pod :=
  { podAB with
    Status :=
      { Phase := "Failed",
        Conditions := [{ Type_ := PodReady, Status := "False", LastProbeTime := 5 }],
        Message := "evicted",
        ContainerStatuses := [submittedStatus] } }

/-- Descriptor of pod `c` in namespace `a-b`. -/
def podHyphenNamespace : Pod :=
  { ObjectMeta := { Namespace := "a-b", Name := "c" },
    Spec := { Containers := [{ Name := "x", Image := "imgx" }] } }

/-- Descriptor of pod `b-c` in namespace `a`. -/
def podHyphenName : Pod :=
  { ObjectMeta := { Namespace := "a", Name := "b-c" },
    Spec := { Containers := [{ Name := "y", Image := "imgy" }] } }

/-- The record stored by admitting `podAB` at instant `1`, read back and
resubmitted with another spec: it still carries the container status of `c1`. -/
def podABRespecified : Pod :=
  { simulateStatus 1 podAB with
    Spec := { Containers := [{ Name := "c2", Image := "img2" }] } }

/-- Descriptor of pod `a/b` with the single container `c2` and no status. -/
def podAB2 : Pod :=
  { ObjectMeta := { Namespace := "a", Name := "b" },
    Spec := { Containers := [{ Name := "c2", Image := "img2" }] } }

/-- A non-preflight request whose body decodes to `p`. -/
def postPod (p : Pod) : Request :=
  { Method := "POST", Body := Decoded.ok p }

/-- A non-preflight request whose body is not JSON, failing with message `e`. -/
def postSyntaxError (e : String) : Request :=
  { Method := "POST", Body := Decoded.syntaxError e }

/-- The descriptor left by decoding the body
`{"metadata":{"namespace":"a","name":"b"},"status":{"message":5}}`: identity
filled in, the ill-typed `message` skipped. -/
def podABPartly : Pod :=
  { ObjectMeta := { Namespace := "a", Name := "b" } }

/-- Error text of the type error on `status.message`. -/
def typeErrorText : String :=
  "json: cannot unmarshal number into Go struct field PodStatus.status.message of type string"

/-- A non-preflight request whose body fails to decode with a type error after
namespace `a` and name `b` have been read. -/
def postTypeError : Request :=
  { Method := "POST", Body := Decoded.failed typeErrorText podABPartly }

/-- A registry holding the zero-valued descriptor (under the key of the empty
namespace and name) and the descriptor `podAB`. -/
def registryZeroAndAB : Registry :=
  (AList.insert (buildKeyFromNames "" "") ({} : Pod) ∅).insert (buildKeyFromNames "a" "b") podAB

/-- A status query for `name` in namespace `ns`. -/
def statusQuery (ns name : String) : Request :=
  { Method := "GET", Query := [("namespace", ns), ("name", name)] }

/-- A log query for container `containerName` of pod `podName` in `ns`. -/
def logQuery (ns podName containerName : String) : Request :=
  { Method := "GET",
    Query := [("namespace", ns), ("podName", podName), ("containerName", containerName)] }

/-! ## Basic facts about the handlers -/

theorem addCorsHeaders_eq_false {r : Request} (h : r.Method ≠ "OPTIONS") :
    addCorsHeaders r = false := by
  simp [addCorsHeaders, h]

theorem appendStatuses_eq (now : Time) (cs : List Container) (acc : List ContainerStatus) :
    appendStatuses now cs acc = acc ++ cs.map (newContainerStatus now) := by
  induction cs generalizing acc with
  | nil => simp [appendStatuses]
  | cons c rest ih => simp [appendStatuses, ih]

theorem simulateStatus_objectMeta (now : Time) (pod : Pod) :
    (simulateStatus now pod).ObjectMeta = pod.ObjectMeta := rfl

theorem simulateStatus_spec (now : Time) (pod : Pod) :
    (simulateStatus now pod).Spec = pod.Spec := rfl

theorem simulateStatus_phase (now : Time) (pod : Pod) :
    (simulateStatus now pod).Status.Phase = PodRunning := rfl

theorem simulateStatus_conditions (now : Time) (pod : Pod) :
    (simulateStatus now pod).Status.Conditions =
      [ { Type_ := PodScheduled, Status := ConditionTrue },
        { Type_ := PodInitialized, Status := ConditionTrue },
        { Type_ := PodReady, Status := ConditionTrue } ] := rfl

theorem simulateStatus_containerStatuses (now : Time) (pod : Pod) :
    (simulateStatus now pod).Status.ContainerStatuses =
      pod.Status.ContainerStatuses ++ pod.Spec.Containers.map (newContainerStatus now) := by
  simp [simulateStatus, appendStatuses_eq]

theorem createPod_eq {r : Request} (h : r.Method ≠ "OPTIONS") (pods : Registry) (now : Time) :
    createPod pods now r =
      (pods.insert (buildKeyFromNames r.Body.pod.ObjectMeta.Namespace r.Body.pod.ObjectMeta.Name)
        (simulateStatus now r.Body.pod), decodeResponse r.Body) := by
  simp [createPod, addCorsHeaders_eq_false h, simulateStatus_objectMeta]

theorem updatePod_eq {r : Request} (h : r.Method ≠ "OPTIONS") (pods : Registry) :
    updatePod pods r =
      (pods.insert (buildKeyFromNames r.Body.pod.ObjectMeta.Namespace r.Body.pod.ObjectMeta.Name)
        r.Body.pod, decodeResponse r.Body) := by
  simp [updatePod, addCorsHeaders_eq_false h]

theorem deletePod_eq {r : Request} (h : r.Method ≠ "OPTIONS") (pods : Registry) :
    deletePod pods r =
      (pods.erase (buildKeyFromNames r.Body.pod.ObjectMeta.Namespace r.Body.pod.ObjectMeta.Name),
        decodeResponse r.Body) := by
  simp [deletePod, addCorsHeaders_eq_false h]

theorem getPodStatus_eq {q : Request} (h : q.Method ≠ "OPTIONS") (pods : Registry) :
    getPodStatus pods q =
      match pods.lookup (buildKeyFromNames (q.queryGet "namespace") (q.queryGet "name")) with
      | none => { Code := 404, Body := Payload.empty }
      | some pod => { Code := 200, Body := Payload.status pod.Status } := by
  simp [getPodStatus, addCorsHeaders_eq_false h]

theorem Registry.size_insert (pods : Registry) (key : String) (pod : Pod) :
    Registry.size (pods.insert key pod) = (List.kerase key pods.entries).length + 1 := by
  simp [Registry.size, AList.insert_entries]

theorem Registry.count_key_insert (pods : Registry) (key : String) (pod : Pod) :
    (pods.insert key pod).keys.count key = 1 :=
  List.count_eq_one_of_mem (AList.keys_nodup _) (AList.mem_keys.mp ((AList.mem_insert pods).mpr (Or.inl rfl)))

theorem kerase_eq_filter (key : String) :
    ∀ {l : List (Sigma (fun _ : String => Pod))}, l.NodupKeys →
      List.kerase key l = l.filter (fun e => decide (e.1 ≠ key))
  | [], _ => rfl
  | s :: l, hnd => by
    obtain ⟨hs, hl⟩ := List.nodupKeys_cons.mp hnd
    by_cases hk : key = s.1
    · subst hk
      have hall : ∀ e ∈ l, decide (e.1 ≠ s.1) = true := by
        intro e he
        exact decide_eq_true (fun h => hs (h ▸ List.mem_keys_of_mem he))
      have hdrop : ¬ (fun e : Sigma (fun _ : String => Pod) => decide (e.1 ≠ s.1)) s = true := by
        simp
      rw [List.kerase_cons_eq rfl]
      exact ((@List.filter_cons_of_neg _ (fun e => decide (e.1 ≠ s.1)) s l hdrop).trans
        (List.filter_eq_self.mpr hall)).symm
    · have hkeep : (fun e : Sigma (fun _ : String => Pod) => decide (e.1 ≠ key)) s = true :=
        decide_eq_true (Ne.symm hk)
      rw [List.kerase_cons_ne hk, kerase_eq_filter key hl]
      exact (@List.filter_cons_of_pos _ (fun e => decide (e.1 ≠ key)) s l hkeep).symm

theorem Registry.erase_of_lookup_eq_none {pods : Registry} {key : String}
    (h : pods.lookup key = none) : pods.erase key = pods := by
  apply AList.ext
  exact List.kerase_of_not_mem_keys (AList.mem_keys.not.mp (AList.lookup_eq_none.mp h))

theorem scanContainers_found (ns podName containerName : String) :
    ∀ cs : List Container, (∃ c ∈ cs, c.Name = containerName) →
      scanContainers ns podName containerName cs =
        { Code := 200, Body := Payload.text (logText ns podName containerName) }
  | [], h => by simp at h
  | c :: rest, h => by
    by_cases hc : c.Name = containerName
    · simp [scanContainers, hc]
    · have hrest : ∃ d ∈ rest, d.Name = containerName := by
        obtain ⟨d, hd, hdn⟩ := h
        rcases List.mem_cons.mp hd with rfl | hd
        · exact absurd hdn hc
        · exact ⟨d, hd, hdn⟩
      simp [scanContainers, hc, scanContainers_found ns podName containerName rest hrest]

theorem scanContainers_missing (ns podName containerName : String) :
    ∀ cs : List Container, (¬ ∃ c ∈ cs, c.Name = containerName) →
      scanContainers ns podName containerName cs = { Code := 404, Body := Payload.empty }
  | [], _ => rfl
  | c :: rest, h => by
    have hc : c.Name ≠ containerName := fun e => h ⟨c, List.mem_cons_self _ _, e⟩
    have hrest : ¬ ∃ d ∈ rest, d.Name = containerName :=
      fun ⟨d, hd, hdn⟩ => h ⟨d, List.mem_cons_of_mem _ hd, hdn⟩
    simp [scanContainers, hc, scanContainers_missing ns podName containerName rest hrest]

/-! ## Admission -/

/-- C1: `createPod` does not reset the container statuses a descriptor arrives
with. Admitting pod `a/b`, whose spec has the one container `c1` and whose
submitted status already lists a container status `old`, stores two container
statuses: the submitted `old` (not ready, restart count 4, no running state)
followed by the synthesized one for `c1`. -/
theorem createPod_keeps_submitted_containerStatuses :
    ((createPod ∅ 7 (postPod podWithStatus)).1.lookup (buildKeyFromNames "a" "b")).map
        (fun pod => pod.Status.ContainerStatuses) =
      some [ { Name := "old", Image := "img0", RestartCount := 4, Ready := false,
               State := { Running := none } },
             { Name := "c1", Image := "img1", RestartCount := 0, Ready := true,
               State := { Running := some { StartedAt := 7 } } } ] := by
  decide

/-- C2: for every registry, instant and non-preflight request, whatever status
the decoded descriptor carries, the record `createPod` stores under the
descriptor's composite key has phase Running and exactly the three conditions
PodScheduled, PodInitialized, PodReady, in this order, each with status true
and every other field (both timestamps, reason, message) at its zero value. -/
theorem createPod_phase_and_conditions (pods : Registry) (now : Time) (r : Request)
    (h : r.Method ≠ "OPTIONS") :
    ∃ pod : Pod,
      (createPod pods now r).1.lookup
          (buildKeyFromNames r.Body.pod.ObjectMeta.Namespace r.Body.pod.ObjectMeta.Name)
        = some pod ∧
      pod.Status.Phase = PodRunning ∧
      pod.Status.Conditions =
        [ { Type_ := PodScheduled, Status := ConditionTrue, LastProbeTime := 0,
            LastTransitionTime := 0, Reason := "", Message := "" },
          { Type_ := PodInitialized, Status := ConditionTrue, LastProbeTime := 0,
            LastTransitionTime := 0, Reason := "", Message := "" },
          { Type_ := PodReady, Status := ConditionTrue, LastProbeTime := 0,
            LastTransitionTime := 0, Reason := "", Message := "" } ] := by
  refine ⟨simulateStatus now r.Body.pod, ?_, rfl, rfl⟩
  rw [createPod_eq h]
  exact AList.lookup_insert _

theorem createPod_phase_and_conditions_witness :
    (postPod podWithStatus).Method ≠ "OPTIONS" ∧
    podWithStatus.Status.Phase = "Failed" ∧
    ∃ pod : Pod,
      (createPod ∅ 3 (postPod podWithStatus)).1.lookup
          (buildKeyFromNames (postPod podWithStatus).Body.pod.ObjectMeta.Namespace
            (postPod podWithStatus).Body.pod.ObjectMeta.Name)
        = some pod ∧
      pod.Status.Phase = PodRunning ∧
      pod.Status.Conditions =
        [ { Type_ := PodScheduled, Status := ConditionTrue, LastProbeTime := 0,
            LastTransitionTime := 0, Reason := "", Message := "" },
          { Type_ := PodInitialized, Status := ConditionTrue, LastProbeTime := 0,
            LastTransitionTime := 0, Reason := "", Message := "" },
          { Type_ := PodReady, Status := ConditionTrue, LastProbeTime := 0,
            LastTransitionTime := 0, Reason := "", Message := "" } ] :=
  ⟨by decide, by decide,
    createPod_phase_and_conditions ∅ 3 (postPod podWithStatus) (by decide)⟩

/-! ## Replacement -/

/-- C3: for every registry and every non-preflight `updatePod` request, a
following non-preflight `getPodStatus` for the namespace and name of the
submitted descriptor answers `200` with exactly the status the descriptor
carried, whatever the registry held before. -/
theorem updatePod_then_getPodStatus (pods : Registry) (r q : Request)
    (hr : r.Method ≠ "OPTIONS") (hq : q.Method ≠ "OPTIONS")
    (hns : q.queryGet "namespace" = r.Body.pod.ObjectMeta.Namespace)
    (hname : q.queryGet "name" = r.Body.pod.ObjectMeta.Name) :
    getPodStatus (updatePod pods r).1 q =
      { Code := 200, Body := Payload.status r.Body.pod.Status } := by
  rw [getPodStatus_eq hq, updatePod_eq hr, hns, hname]
  simp only [AList.lookup_insert]

theorem updatePod_then_getPodStatus_witness :
    getPodStatus (updatePod ∅ (postPod podWithStatus)).1 (statusQuery "a" "b") =
      { Code := 200, Body := Payload.status podWithStatus.Status } :=
  updatePod_then_getPodStatus ∅ (postPod podWithStatus) (statusQuery "a" "b")
    (by decide) (by decide) (by decide) (by decide)

/-! ## The composite key -/

/-- C5: `createPod` does not reset the container statuses a descriptor arrives
with, so the last admission does not always store a status derived from its
spec alone. Admit `a/b` with container `c1`, then admit a descriptor with the
same namespace and name, another spec (container `c2` only) and the status
read back from the first record: the record stored last lists a container
status for `c1`, which is not in its spec, before the one for `c2`. -/
theorem createPod_twice_keeps_resubmitted_statuses :
    podABRespecified.ObjectMeta = podAB.ObjectMeta ∧
    podABRespecified.Spec ≠ podAB.Spec ∧
    ((createPod (createPod ∅ 1 (postPod podAB)).1 2 (postPod podABRespecified)).1.lookup
        (buildKeyFromNames "a" "b")).map
        (fun pod => pod.Status.ContainerStatuses.map (fun st => (st.Name, st.State.Running)))
      = some [("c1", some { StartedAt := 1 }), ("c2", some { StartedAt := 2 })] ∧
    ((createPod (createPod ∅ 1 (postPod podAB)).1 2 (postPod podABRespecified)).1.lookup
        (buildKeyFromNames "a" "b")).map (fun pod => pod.Status.ContainerStatuses)
      ≠ some (podABRespecified.Spec.Containers.map (newContainerStatus 2)) := by
  decide

/-- Last write wins: for every registry and two non-preflight `createPod` requests
whose descriptors have the same namespace and name, the second admission
leaves the registry exactly as it would be had the first never happened: one
record under the composite key, as many records as after the first admission
alone, and that record is the one `createPod` builds from the second
descriptor. When the second descriptor is submitted without container
statuses, the record is that descriptor with phase Running, the three
conditions and one synthesized container status per container of its spec. -/
theorem createPod_twice (pods : Registry) (t1 t2 : Time) (r1 r2 : Request)
    (h1 : r1.Method ≠ "OPTIONS") (h2 : r2.Method ≠ "OPTIONS")
    (hns : r1.Body.pod.ObjectMeta.Namespace = r2.Body.pod.ObjectMeta.Namespace)
    (hname : r1.Body.pod.ObjectMeta.Name = r2.Body.pod.ObjectMeta.Name) :
    (createPod (createPod pods t1 r1).1 t2 r2).1 = (createPod pods t2 r2).1 ∧
    (createPod (createPod pods t1 r1).1 t2 r2).1.keys.count
        (buildKeyFromNames r2.Body.pod.ObjectMeta.Namespace r2.Body.pod.ObjectMeta.Name) = 1 ∧
    Registry.size (createPod (createPod pods t1 r1).1 t2 r2).1 =
      Registry.size (createPod pods t1 r1).1 ∧
    (createPod (createPod pods t1 r1).1 t2 r2).1.lookup
        (buildKeyFromNames r2.Body.pod.ObjectMeta.Namespace r2.Body.pod.ObjectMeta.Name)
      = some (simulateStatus t2 r2.Body.pod) ∧
    (r2.Body.pod.Status.ContainerStatuses = [] →
      simulateStatus t2 r2.Body.pod =
        { ObjectMeta := r2.Body.pod.ObjectMeta,
          Spec := r2.Body.pod.Spec,
          Status :=
            { r2.Body.pod.Status with
              Phase := PodRunning,
              Conditions :=
                [ { Type_ := PodScheduled, Status := ConditionTrue },
                  { Type_ := PodInitialized, Status := ConditionTrue },
                  { Type_ := PodReady, Status := ConditionTrue } ],
              ContainerStatuses := r2.Body.pod.Spec.Containers.map (newContainerStatus t2) } }) := by
  have e : (createPod (createPod pods t1 r1).1 t2 r2).1 = (createPod pods t2 r2).1 := by
    rw [createPod_eq h2, createPod_eq h1, createPod_eq h2, hns, hname]
    exact AList.insert_insert _
  refine ⟨e, ?_, ?_, ?_, ?_⟩
  · rw [e, createPod_eq h2]
    exact Registry.count_key_insert _ _ _
  · rw [e, createPod_eq h2, createPod_eq h1, hns, hname]
    simp only [Registry.size_insert]
  · rw [e, createPod_eq h2]
    exact AList.lookup_insert _
  · intro hcs
    simp [simulateStatus, appendStatuses_eq, hcs]

theorem createPod_twice_witness :
    (createPod (createPod ∅ 1 (postPod podAB)).1 2 (postPod podAB2)).1.lookup
        (buildKeyFromNames "a" "b")
      = some (simulateStatus 2 podAB2) ∧
    (simulateStatus 2 podAB2).Status.ContainerStatuses =
      [newContainerStatus 2 { Name := "c2", Image := "img2" }] :=
  have h := createPod_twice ∅ 1 2 (postPod podAB) (postPod podAB2)
    (by decide) (by decide) rfl rfl
  ⟨h.2.2.2.1, congrArg (fun pod => pod.Status.ContainerStatuses) (h.2.2.2.2 rfl)⟩

/-! ## Removal -/

/-- C6: for every registry and every non-preflight `deletePod` request with a
well-formed body, the response is the untouched `200` with no body and the
registry left is the old one without the entry under the composite key of the
submitted namespace and name: that key reads as absent, every other key reads
as before, the remaining entries are the old ones in place; when the key was
absent the registry is unchanged; and after an admission on the empty registry
a removal for the same namespace and name makes `GetPods` list nothing. -/
theorem deletePod_spec (pods : Registry) (r : Request)
    (h : r.Method ≠ "OPTIONS") (hbody : r.Body.err = none) :
    (deletePod pods r).2 = { Code := 200, Body := Payload.empty } ∧
    (deletePod pods r).1.lookup
        (buildKeyFromNames r.Body.pod.ObjectMeta.Namespace r.Body.pod.ObjectMeta.Name) = none ∧
    (∀ key : String,
      key ≠ buildKeyFromNames r.Body.pod.ObjectMeta.Namespace r.Body.pod.ObjectMeta.Name →
      (deletePod pods r).1.lookup key = pods.lookup key) ∧
    (deletePod pods r).1.entries =
      pods.entries.filter (fun e => decide (e.1 ≠
        buildKeyFromNames r.Body.pod.ObjectMeta.Namespace r.Body.pod.ObjectMeta.Name)) ∧
    (pods.lookup
        (buildKeyFromNames r.Body.pod.ObjectMeta.Namespace r.Body.pod.ObjectMeta.Name) = none →
      (deletePod pods r).1 = pods ∧
      Registry.size (deletePod pods r).1 = Registry.size pods) ∧
    (∀ (now : Time) (c g : Request), c.Method ≠ "OPTIONS" → g.Method ≠ "OPTIONS" →
      c.Body.pod.ObjectMeta = r.Body.pod.ObjectMeta →
      GetPods (deletePod (createPod ∅ now c).1 r).1 g =
        { Code := 200, Body := Payload.podList [] }) := by
  refine ⟨?_, ?_, ?_, ?_, ?_, ?_⟩
  · simp [deletePod_eq h, decodeResponse, hbody]
  · rw [deletePod_eq h]
    exact AList.lookup_erase _ _
  · intro key hkey
    rw [deletePod_eq h]
    exact AList.lookup_erase_ne hkey
  · rw [deletePod_eq h]
    exact kerase_eq_filter _ pods.nodupKeys
  · intro hnone
    rw [deletePod_eq h, Registry.erase_of_lookup_eq_none hnone]
    exact ⟨rfl, rfl⟩
  · intro now c g hc hg hmeta
    rw [deletePod_eq h, createPod_eq hc, hmeta]
    simp [GetPods, addCorsHeaders_eq_false hg, Registry.values, AList.insert_entries,
      AList.erase, List.kerase_cons_eq]

theorem deletePod_spec_witness :
    (deletePod ∅ (postPod podAB)).1 = ∅ ∧
    GetPods (deletePod (createPod ∅ 7 (postPod podAB)).1 (postPod podAB)).1 (statusQuery "" "") =
      { Code := 200, Body := Payload.podList [] } :=
  have h := deletePod_spec ∅ (postPod podAB) (by decide) rfl
  ⟨(h.2.2.2.2.1 rfl).1,
    h.2.2.2.2.2 7 (postPod podAB) (statusQuery "" "") (by decide) (by decide) rfl⟩

/-! ## Status lookup -/

/-- C7: for every registry and every non-preflight `getPodStatus` request, the
answer is `404` with no body exactly when no record is stored under the
composite key of the requested namespace and name, and otherwise `200` with
the status of the stored record; on the empty registry the answer is `404`;
and after admitting pod `a/b` with the one container `c1`/`img1` on any
registry at any instant, the status of `a/b` has phase Running and the single
container status `c1`, ready, running since that instant. -/
theorem getPodStatus_spec (pods : Registry) (q : Request) (hq : q.Method ≠ "OPTIONS") :
    (getPodStatus pods q = { Code := 404, Body := Payload.empty } ↔
      pods.lookup (buildKeyFromNames (q.queryGet "namespace") (q.queryGet "name")) = none) ∧
    (∀ pod : Pod,
      pods.lookup (buildKeyFromNames (q.queryGet "namespace") (q.queryGet "name")) = some pod →
      getPodStatus pods q = { Code := 200, Body := Payload.status pod.Status }) ∧
    getPodStatus ∅ q = { Code := 404, Body := Payload.empty } ∧
    (∀ now : Time,
      getPodStatus (createPod pods now (postPod podAB)).1 (statusQuery "a" "b") =
        { Code := 200,
          Body := Payload.status
            { Phase := PodRunning,
              Conditions :=
                [ { Type_ := PodScheduled, Status := ConditionTrue },
                  { Type_ := PodInitialized, Status := ConditionTrue },
                  { Type_ := PodReady, Status := ConditionTrue } ],
              ContainerStatuses :=
                [ { Name := "c1", Image := "img1", Ready := true, RestartCount := 0,
                    State := { Running := some { StartedAt := now } } } ] } }) := by
  refine ⟨?_, ?_, ?_, ?_⟩
  · rw [getPodStatus_eq hq]
    cases hl : pods.lookup (buildKeyFromNames (q.queryGet "namespace") (q.queryGet "name")) with
    | none => simp
    | some pod => simp
  · intro pod hpod
    rw [getPodStatus_eq hq, hpod]
  · rw [getPodStatus_eq hq, AList.lookup_empty]
  · intro now
    have hm1 : (statusQuery "a" "b").Method ≠ "OPTIONS" := by decide
    have hm2 : (postPod podAB).Method ≠ "OPTIONS" := by decide
    have hk : buildKeyFromNames ((statusQuery "a" "b").queryGet "namespace")
        ((statusQuery "a" "b").queryGet "name") =
        buildKeyFromNames (postPod podAB).Body.pod.ObjectMeta.Namespace
          (postPod podAB).Body.pod.ObjectMeta.Name := by decide
    rw [getPodStatus_eq hm1, createPod_eq hm2, hk, AList.lookup_insert]
    rfl

theorem getPodStatus_spec_witness :
    getPodStatus ∅ (statusQuery "missing" "pod") = { Code := 404, Body := Payload.empty } ∧
    getPodStatus (createPod ∅ 7 (postPod podAB)).1 (statusQuery "a" "b") =
      { Code := 200,
        Body := Payload.status
          { Phase := PodRunning,
            Conditions :=
              [ { Type_ := PodScheduled, Status := ConditionTrue },
                { Type_ := PodInitialized, Status := ConditionTrue },
                { Type_ := PodReady, Status := ConditionTrue } ],
            ContainerStatuses :=
              [ { Name := "c1", Image := "img1", Ready := true, RestartCount := 0,
                  State := { Running := some { StartedAt := 7 } } } ] } } :=
  ⟨(getPodStatus_spec ∅ (statusQuery "missing" "pod") (by decide)).2.2.1,
    (getPodStatus_spec ∅ (statusQuery "a" "b") (by decide)).2.2.2 7⟩

/-! ## Container logs -/

/-- C8: for every registry and every non-preflight `getContainerLogs` request,
if a record is stored under the composite key of the requested namespace and
pod name and some container of its spec has the requested container name, the
answer is `200` with the placeholder text built from the three requested
names; in every other case, pod absent or no such container in the spec, the
answer is the same `404` with no body. -/
theorem getContainerLogs_spec (pods : Registry) (q : Request) (hq : q.Method ≠ "OPTIONS") :
    ((∃ pod : Pod,
        pods.lookup (buildKeyFromNames (q.queryGet "namespace") (q.queryGet "podName"))
          = some pod ∧
        ∃ c ∈ pod.Spec.Containers, c.Name = q.queryGet "containerName") →
      getContainerLogs pods q =
        { Code := 200,
          Body := Payload.text
            ("Simulated log content for " ++ q.queryGet "namespace" ++ ", " ++
              q.queryGet "podName" ++ ", " ++ q.queryGet "containerName" ++
              "\nIf this provider actually ran the containers then the logs would appear here ;-)\n") }) ∧
    ((¬ ∃ pod : Pod,
        pods.lookup (buildKeyFromNames (q.queryGet "namespace") (q.queryGet "podName"))
          = some pod ∧
        ∃ c ∈ pod.Spec.Containers, c.Name = q.queryGet "containerName") →
      getContainerLogs pods q = { Code := 404, Body := Payload.empty }) := by
  have hunfold : getContainerLogs pods q =
      match pods.lookup (buildKeyFromNames (q.queryGet "namespace") (q.queryGet "podName")) with
      | none => { Code := 404, Body := Payload.empty }
      | some pod =>
        scanContainers (q.queryGet "namespace") (q.queryGet "podName")
          (q.queryGet "containerName") pod.Spec.Containers := by
    simp [getContainerLogs, addCorsHeaders_eq_false hq]
  constructor
  · rintro ⟨pod, hpod, hc⟩
    rw [hunfold, hpod]
    exact scanContainers_found _ _ _ _ hc
  · intro hno
    rw [hunfold]
    cases hl : pods.lookup (buildKeyFromNames (q.queryGet "namespace") (q.queryGet "podName")) with
    | none => rfl
    | some pod =>
      exact scanContainers_missing _ _ _ _ (fun hc => hno ⟨pod, hl, hc⟩)

theorem getContainerLogs_spec_witness :
    getContainerLogs (createPod ∅ 7 (postPod podAB)).1 (logQuery "a" "b" "c1") =
      { Code := 200,
        Body := Payload.text
          "Simulated log content for a, b, c1\nIf this provider actually ran the containers then the logs would appear here ;-)\n" } ∧
    getContainerLogs (createPod ∅ 7 (postPod podAB)).1 (logQuery "a" "b" "nope") =
      { Code := 404, Body := Payload.empty } ∧
    getContainerLogs ∅ (logQuery "a" "b" "c1") = { Code := 404, Body := Payload.empty } :=
  ⟨(getContainerLogs_spec (createPod ∅ 7 (postPod podAB)).1 (logQuery "a" "b" "c1")
      (by decide)).1 ⟨simulateStatus 7 podAB, by decide, by decide⟩,
    (getContainerLogs_spec (createPod ∅ 7 (postPod podAB)).1 (logQuery "a" "b" "nope")
      (by decide)).2 (by decide),
    (getContainerLogs_spec ∅ (logQuery "a" "b" "c1") (by decide)).2 (by decide)⟩

/-! ## Bodies that fail to decode -/

/-- C9, as stated, fails: a body with namespace `a`, name `b` and a number
where `status.message` wants a string cannot be decoded, yet the descriptor
left is not the zero value. `createPod` and `updatePod` answer `400` and store
their record under the key of `a`/`b`, nothing under the key of the empty
namespace and name; `deletePod` answers `400` and removes the record of
`a`/`b`, leaving the record stored under the key of the empty namespace and
name in place. -/
theorem failed_decode_keeps_partial_descriptor :
    (createPod ∅ 7 postTypeError).2 =
      { Code := 400, Body := Payload.text (typeErrorText ++ "\n") } ∧
    (createPod ∅ 7 postTypeError).1.lookup (buildKeyFromNames "" "") = none ∧
    ((createPod ∅ 7 postTypeError).1.lookup (buildKeyFromNames "a" "b")).map
        (fun pod => (pod.ObjectMeta, pod.Status.Phase))
      = some ({ Namespace := "a", Name := "b" }, PodRunning) ∧
    (updatePod ∅ postTypeError).2 =
      { Code := 400, Body := Payload.text (typeErrorText ++ "\n") } ∧
    (updatePod ∅ postTypeError).1.lookup (buildKeyFromNames "" "") = none ∧
    (updatePod ∅ postTypeError).1.lookup (buildKeyFromNames "a" "b") = some podABPartly ∧
    registryZeroAndAB.lookup (buildKeyFromNames "" "") = some {} ∧
    registryZeroAndAB.lookup (buildKeyFromNames "a" "b") = some podAB ∧
    (deletePod registryZeroAndAB postTypeError).2 =
      { Code := 400, Body := Payload.text (typeErrorText ++ "\n") } ∧
    (deletePod registryZeroAndAB postTypeError).1.lookup (buildKeyFromNames "" "") = some {} ∧
    (deletePod registryZeroAndAB postTypeError).1.lookup (buildKeyFromNames "a" "b") = none := by
  decide

/-- C9, amended: for every registry and every non-preflight request whose body
fails to decode with message `e`, whatever descriptor the decoder left,
`createPod`, `updatePod` and `deletePod` each answer `400` with the error text
and still carry out their registry operation on that descriptor: `createPod`
stores under the composite key of its namespace and name the record it builds
from it, with phase Running and the three true conditions, `updatePod` stores
the descriptor itself under that key, and `deletePod` removes whatever was
stored under it. When the descriptor left is the zero value, the key is that
of the empty namespace and name, and the record of `createPod` has no
container statuses. -/
theorem failed_decode_does_not_halt (pods : Registry) (now : Time) (r : Request) (e : String)
    (h : r.Method ≠ "OPTIONS") (herr : r.Body.err = some e) :
    (createPod pods now r).2 = { Code := 400, Body := Payload.text (e ++ "\n") } ∧
    (updatePod pods r).2 = { Code := 400, Body := Payload.text (e ++ "\n") } ∧
    (deletePod pods r).2 = { Code := 400, Body := Payload.text (e ++ "\n") } ∧
    (createPod pods now r).1 =
      pods.insert
        (buildKeyFromNames r.Body.pod.ObjectMeta.Namespace r.Body.pod.ObjectMeta.Name)
        (simulateStatus now r.Body.pod) ∧
    (updatePod pods r).1 =
      pods.insert
        (buildKeyFromNames r.Body.pod.ObjectMeta.Namespace r.Body.pod.ObjectMeta.Name)
        r.Body.pod ∧
    (deletePod pods r).1 =
      pods.erase
        (buildKeyFromNames r.Body.pod.ObjectMeta.Namespace r.Body.pod.ObjectMeta.Name) ∧
    ((createPod pods now r).1.lookup
        (buildKeyFromNames r.Body.pod.ObjectMeta.Namespace r.Body.pod.ObjectMeta.Name)).map
        (fun pod => (pod.ObjectMeta, pod.Spec, pod.Status.Phase,
          pod.Status.Conditions.map (fun c => (c.Type_, c.Status))))
      = some (r.Body.pod.ObjectMeta, r.Body.pod.Spec, PodRunning,
          [(PodScheduled, ConditionTrue), (PodInitialized, ConditionTrue),
            (PodReady, ConditionTrue)]) ∧
    (updatePod pods r).1.lookup
        (buildKeyFromNames r.Body.pod.ObjectMeta.Namespace r.Body.pod.ObjectMeta.Name)
      = some r.Body.pod ∧
    (deletePod pods r).1.lookup
        (buildKeyFromNames r.Body.pod.ObjectMeta.Namespace r.Body.pod.ObjectMeta.Name)
      = none ∧
    (r.Body.pod = {} →
      (createPod pods now r).1 =
        pods.insert (buildKeyFromNames "" "")
          { ObjectMeta := { Namespace := "", Name := "" },
            Spec := { Containers := [] },
            Status :=
              { Phase := PodRunning,
                Conditions :=
                  [ { Type_ := PodScheduled, Status := ConditionTrue },
                    { Type_ := PodInitialized, Status := ConditionTrue },
                    { Type_ := PodReady, Status := ConditionTrue } ],
                ContainerStatuses := [] } } ∧
      (updatePod pods r).1 = pods.insert (buildKeyFromNames "" "") {} ∧
      (deletePod pods r).1 = pods.erase (buildKeyFromNames "" "")) := by
  have hw : decodeResponse r.Body = { Code := 400, Body := Payload.text (e ++ "\n") } := by
    simp [decodeResponse, herr]
  have hc := createPod_eq h pods now
  have hu := updatePod_eq h pods
  have hd := deletePod_eq h pods
  refine ⟨by rw [hc, hw], by rw [hu, hw], by rw [hd, hw], by rw [hc], by rw [hu], by rw [hd],
    ?_, ?_, ?_, ?_⟩
  · rw [hc, AList.lookup_insert]; rfl
  · rw [hu, AList.lookup_insert]
  · rw [hd, AList.lookup_erase]
  · intro hzero
    rw [hc, hu, hd, hzero]
    exact ⟨rfl, rfl, rfl⟩

theorem failed_decode_does_not_halt_witness :
    (createPod ∅ 7 (postSyntaxError "unexpected EOF")).2 =
      { Code := 400, Body := Payload.text "unexpected EOF\n" } ∧
    (updatePod ∅ (postSyntaxError "unexpected EOF")).1 =
      AList.insert (buildKeyFromNames "" "") ({} : Pod) ∅ ∧
    (createPod ∅ 7 postTypeError).1 =
      AList.insert (buildKeyFromNames "a" "b") (simulateStatus 7 podABPartly) ∅ ∧
    Registry.size (createPod ∅ 7 (postSyntaxError "unexpected EOF")).1 = 1 ∧
    Registry.size (deletePod (updatePod ∅ (postPod {})).1 (postSyntaxError "unexpected EOF")).1
      = 0 :=
  ⟨(failed_decode_does_not_halt ∅ 7 (postSyntaxError "unexpected EOF") "unexpected EOF"
      (by decide) rfl).1,
    ((failed_decode_does_not_halt ∅ 7 (postSyntaxError "unexpected EOF") "unexpected EOF"
      (by decide) rfl).2.2.2.2.2.2.2.2.2 rfl).2.1,
    (failed_decode_does_not_halt ∅ 7 postTypeError typeErrorText (by decide) rfl).2.2.2.1,
    by decide, by decide⟩

/-! ## The registry invariant -/

theorem keysMatch_insert {pods : Registry} (hpods : KeysMatch pods) (pod : Pod) :
    KeysMatch
      (pods.insert (buildKeyFromNames pod.ObjectMeta.Namespace pod.ObjectMeta.Name) pod) := by
  intro e he
  rw [AList.insert_entries] at he
  rcases List.mem_cons.mp he with rfl | he
  · rfl
  · exact hpods e ((List.kerase_sublist _ _).subset he)

theorem keysMatch_erase {pods : Registry} (hpods : KeysMatch pods) (key : String) :
    KeysMatch (pods.erase key) := by
  intro e he
  exact hpods e ((List.kerase_sublist _ _).subset he)

theorem keysMatch_apply {pods : Registry} (hpods : KeysMatch pods) (call : Call) :
    KeysMatch (call.apply pods) := by
  cases call with
  | create now r =>
    by_cases h : r.Method = "OPTIONS"
    · simpa [Call.apply, createPod, addCorsHeaders, h] using hpods
    · rw [Call.apply, createPod_eq h]
      exact keysMatch_insert hpods (simulateStatus now r.Body.pod)
  | update r =>
    by_cases h : r.Method = "OPTIONS"
    · simpa [Call.apply, updatePod, addCorsHeaders, h] using hpods
    · rw [Call.apply, updatePod_eq h]
      exact keysMatch_insert hpods r.Body.pod
  | delete r =>
    by_cases h : r.Method = "OPTIONS"
    · simpa [Call.apply, deletePod, addCorsHeaders, h] using hpods
    · rw [Call.apply, deletePod_eq h]
      exact keysMatch_erase hpods _

theorem keysMatch_runCalls (calls : List Call) :
    ∀ {pods : Registry}, KeysMatch pods → KeysMatch (runCalls pods calls) := by
  induction calls with
  | nil => intro pods hpods; exact hpods
  | cons call rest ih =>
    intro pods hpods
    exact ih (keysMatch_apply hpods call)

theorem entry_eq_of_key_eq (pods : Registry) {e1 e2 : Sigma (fun _ : String => Pod)}
    (h1 : e1 ∈ pods.entries) (h2 : e2 ∈ pods.entries) (hk : e1.1 = e2.1) : e1 = e2 := by
  obtain ⟨k1, v1⟩ := e1
  obtain ⟨k2, v2⟩ := e2
  simp only at hk
  subst hk
  have := pods.nodupKeys.eq_of_mk_mem h1 h2
  rw [this]

/-- C10: in every registry reached from the empty registry by any sequence of
`createPod`, `updatePod` and `deletePod` calls (with any requests, preflight
or not, well-formed or not), each stored record sits under the composite key
built from its own namespace and name, and two stored entries whose records
have the same namespace and the same name are one and the same entry. -/
theorem registry_invariant (calls : List Call) :
    (∀ e ∈ (runCalls ∅ calls).entries,
      e.1 = buildKeyFromNames e.2.ObjectMeta.Namespace e.2.ObjectMeta.Name) ∧
    (∀ e1 ∈ (runCalls ∅ calls).entries, ∀ e2 ∈ (runCalls ∅ calls).entries,
      e1.2.ObjectMeta.Namespace = e2.2.ObjectMeta.Namespace →
      e1.2.ObjectMeta.Name = e2.2.ObjectMeta.Name → e1 = e2) := by
  have hinv : KeysMatch (runCalls ∅ calls) :=
    keysMatch_runCalls calls (fun e he => by simp at he)
  refine ⟨hinv, ?_⟩
  intro e1 h1 e2 h2 hns hname
  apply entry_eq_of_key_eq _ h1 h2
  rw [hinv e1 h1, hinv e2 h2, hns, hname]

theorem registry_invariant_witness :
    (runCalls ∅ [Call.create 1 (postPod podHyphenNamespace), Call.update (postPod podWithStatus),
        Call.create 2 (postPod podHyphenName), Call.delete (postSyntaxError "EOF")]).keys
      = [buildKeyFromNames "a" "b-c", buildKeyFromNames "a" "b"] ∧
    ∀ e ∈ (runCalls ∅ [Call.create 1 (postPod podHyphenNamespace),
        Call.update (postPod podWithStatus), Call.create 2 (postPod podHyphenName),
        Call.delete (postSyntaxError "EOF")]).entries,
      e.1 = buildKeyFromNames e.2.ObjectMeta.Namespace e.2.ObjectMeta.Name :=
  ⟨by decide,
    (registry_invariant [Call.create 1 (postPod podHyphenNamespace),
      Call.update (postPod podWithStatus), Call.create 2 (postPod podHyphenName),
      Call.delete (postSyntaxError "EOF")]).1⟩

end VirkubeDemo
